import Mathlib

/-!
Shallow embedding of `src/desafio-novocd-magalu.py`, a script that compares
candidate cities for a new distribution center with a weighted multi-criteria
scoring model (real-estate cost, logistics time, neighboring economic output).
Numeric values are modelled as rationals; the pandas/sklearn library calls are
modelled by their documented semantics (noted at each definition).
-/

/-- A candidate city: name, rent cost per square meter (`Custo_m2_Aluguel`),
the list of road distances to the shared destination capitals (`distancias`,
one entry per capital, in the shared order), and the summed economic output of
neighboring states (`Potencial_PIB_Vizinhos`). -/
structure Cidade where
  nome : String
  custo : ℚ
  distancias : List ℚ
  pibVizinhos : ℚ
deriving DecidableEq

/-- The weight triple `pesos` of section 2.4 of the script. -/
structure Pesos where
  custo : ℚ
  logistica : ℚ
  consumo : ℚ
deriving DecidableEq

/-- `pesos = {'Custo': 0.30, 'Logistica': 0.40, 'Consumo': 0.30}` (line 74). -/
def pesosRef : Pesos := { custo := 30/100, logistica := 40/100, consumo := 30/100 }

/-- `pib_estados` (line 42): share of the regional GDP per state. -/
def pibEstados (uf : String) : ℚ :=
  if uf = "BA" then 29
  else if uf = "PE" then 177/10
  else if uf = "CE" then 154/10
  else if uf = "MA" then 101/10
  else if uf = "RN" then 68/10
  else if uf = "PB" then 62/10
  else if uf = "AL" then 55/10
  else if uf = "PI" then 52/10
  else if uf = "SE" then 41/10
  else 0

/-- `capitais_ne` (line 25): the shared ordered destination list. -/
def capitaisNE : List String :=
  ["Aracaju", "Maceió", "João Pessoa", "Natal", "Fortaleza", "Teresina", "São Luís"]

/-- Recife's row of the constant tables (lines 17-48): cost 18.50, the seven
distances in the order of `capitaisNE`, and the GDP sum over PE, PB, RN, CE, AL. -/
def recife : Cidade :=
  { nome := "Recife"
    custo := 185/10
    distancias := [503, 257, 120, 290, 754, 1138, 1586]
    pibVizinhos :=
      pibEstados "PE" + pibEstados "PB" + pibEstados "RN" + pibEstados "CE" + pibEstados "AL" }

/-- Salvador's row of the constant tables (lines 17-48): cost 21.00, the seven
distances in the order of `capitaisNE`, and the GDP sum over BA, SE, AL, PE. -/
def salvador : Cidade :=
  { nome := "Salvador"
    custo := 21
    distancias := [321, 580, 933, 1101, 1200, 1145, 1577]
    pibVizinhos :=
      pibEstados "BA" + pibEstados "SE" + pibEstados "AL" + pibEstados "PE" }

/-- The candidate set of the run, in input order (Recife first). -/
def cidadesRef : List Cidade := [recife, salvador]

/-- Arithmetic mean of a list, as `pandas.DataFrame.mean(axis=1)` computes it:
sum divided by count. -/
def media (xs : List ℚ) : ℚ := xs.sum / xs.length

/-- Section 2.1 (lines 54-57): each distance is divided by the average truck
speed of 60 km/h and `Tempo_Medio_Entrega` is the row mean of the results. -/
def tempoMedioDe (c : Cidade) : ℚ := media (c.distancias.map (fun d => d / 60))

/-- Minimum of a list of rationals (`0` on the empty list, which the script
never feeds to the scaler). -/
def minimo : List ℚ → ℚ
  | [] => 0
  | x :: xs => xs.foldl min x

/-- Maximum of a list of rationals (`0` on the empty list). -/
def maximo : List ℚ → ℚ
  | [] => 0
  | x :: xs => xs.foldl max x

/-- `sklearn.preprocessing.MinMaxScaler` on one feature column (lines 68-71),
per its documented semantics: `X_std = (X - X.min) / (X.max - X.min)`, where a
zero range (`X.max == X.min`) is replaced by `1` before dividing
(`_handle_zeros_in_scale`), so a constant column maps to all zeros. -/
def minmaxNorm (xs : List ℚ) (v : ℚ) : ℚ :=
  (v - minimo xs) / (if maximo xs - minimo xs = 0 then 1 else maximo xs - minimo xs)

/-- The `Inverso_Custo` column (line 65) over the whole run. -/
def colCusto (cs : List Cidade) : List ℚ := cs.map (fun c => 1 / c.custo)

/-- The `Inverso_Tempo_Medio` column (line 66) over the whole run. -/
def colTempo (cs : List Cidade) : List ℚ := cs.map (fun c => 1 / tempoMedioDe c)

/-- The `Potencial_PIB_Vizinhos` column (line 48) over the whole run. -/
def colConsumo (cs : List Cidade) : List ℚ := cs.map (fun c => c.pibVizinhos)

/-- `Pontuacao_Final` of one city (lines 75-79): the weighted sum of its three
normalized sub-scores, each normalized across the full run. -/
def pontuacaoDe (p : Pesos) (cs : List Cidade) (c : Cidade) : ℚ :=
  minmaxNorm (colCusto cs) (1 / c.custo) * p.custo
  + minmaxNorm (colTempo cs) (1 / tempoMedioDe c) * p.logistica
  + minmaxNorm (colConsumo cs) c.pibVizinhos * p.consumo

/-- One row of `df_analise` after section 2.4: raw metrics, derived metrics,
the three normalized sub-scores and the final score. -/
structure Registro where
  nome : String
  custo : ℚ
  tempoMedioEntrega : ℚ
  potencial : ℚ
  scoreCusto : ℚ
  scoreLogistica : ℚ
  scoreConsumo : ℚ
  pontuacaoFinal : ℚ
deriving DecidableEq

/-- The full `df_analise` row for one city of the run `cs`. -/
def registroDe (p : Pesos) (cs : List Cidade) (c : Cidade) : Registro :=
  { nome := c.nome
    custo := c.custo
    tempoMedioEntrega := tempoMedioDe c
    potencial := c.pibVizinhos
    scoreCusto := minmaxNorm (colCusto cs) (1 / c.custo)
    scoreLogistica := minmaxNorm (colTempo cs) (1 / tempoMedioDe c)
    scoreConsumo := minmaxNorm (colConsumo cs) c.pibVizinhos
    pontuacaoFinal := pontuacaoDe p cs c }

/-- The scoring engine (sections 2.1-2.4): one `Registro` per city, in input
order. -/
def pontuar (p : Pesos) (cs : List Cidade) : List Registro :=
  cs.map (registroDe p cs)

/-- `pandas.Series.idxmax` (line 84), per its documented semantics: the index
of the first occurrence of the maximum value. -/
def idxmax (xs : List ℚ) : Nat := xs.findIdx (fun v => decide (v = maximo xs))

/-- `cidade_vencedora` (line 84): the row at the index of the first maximal
final score (`none` only on an empty run, where `idxmax` would raise). -/
def vencedoraDe (p : Pesos) (cs : List Cidade) : Option Registro :=
  let rs := pontuar p cs
  rs.get? (idxmax (rs.map (fun r => r.pontuacaoFinal)))

/-- Round-half-to-even to an integer, the rounding used by `pandas.round` and
Python's `format(x, '.2f')` (lines 88 and 91). -/
def roundHalfEven (q : ℚ) : ℤ :=
  if q - ⌊q⌋ < 1/2 then ⌊q⌋
  else if 1/2 < q - ⌊q⌋ then ⌊q⌋ + 1
  else if 2 ∣ ⌊q⌋ then ⌊q⌋ else ⌊q⌋ + 1

/-- Rounding to two decimal places, as in `df.round(2)` and `f"{x:.2f}"`. -/
def round2 (q : ℚ) : ℚ := (roundHalfEven (q * 100) : ℚ) / 100

/-- One printed row of the final table (line 88): city name and the four
numeric columns rounded to two decimals. -/
def linhaTabela (r : Registro) : String × ℚ × ℚ × ℚ × ℚ :=
  (r.nome, round2 r.custo, round2 r.tempoMedioEntrega, round2 r.potencial,
    round2 r.pontuacaoFinal)

/-- The console output of the run (lines 86-91): the ranked table and the
conclusion naming the winning city with its score to two decimals (`none`
when the run is empty and `idxmax` would raise before printing). -/
structure Saida where
  tabela : List (String × ℚ × ℚ × ℚ × ℚ)
  conclusao : Option (String × ℚ)
deriving DecidableEq

/-- The console output as a function of the run's inputs. -/
def saida (p : Pesos) (cs : List Cidade) : Saida :=
  { tabela := (pontuar p cs).map linhaTabela
    conclusao := (vencedoraDe p cs).map (fun r => (r.nome, round2 r.pontuacaoFinal)) }

/-- The observable events of one run, in program order: the five console
prints of lines 86-91, then `fig_bar.show()` (line 99), then
`fig_map.show()` (line 142). -/
inductive Evento where
  | cabecalho
  | avisoTabela
  | linhasTabela (linhas : List (String × ℚ × ℚ × ℚ × ℚ))
  | avisoConclusao
  | conclusaoCidade (nome : String)
  | conclusaoPontuacao (valor : ℚ)
  | graficoBarras
  | graficoMapa
deriving DecidableEq

/-- Whether an event is a console print (lines 86-91). -/
def Evento.ehConsole : Evento → Bool
  | graficoBarras => false
  | graficoMapa => false
  | _ => true

/-- Whether an event is one of the two chart-rendering calls (lines 99, 142). -/
def Evento.ehGrafico : Evento → Bool
  | graficoBarras => true
  | graficoMapa => true
  | _ => false

/-- The event trace of a run, in the order the script performs them: line 84
computes `cidade_vencedora` (on an empty frame `idxmax` raises there, before
anything is printed, hence the empty trace), then the five console prints of
lines 86-91, then the bar chart (line 99), then the map (line 142). -/
def eventos (p : Pesos) (cs : List Cidade) : List Evento :=
  match vencedoraDe p cs with
  | none => []
  | some r =>
    [Evento.cabecalho, Evento.avisoTabela,
     Evento.linhasTabela ((pontuar p cs).map linhaTabela), Evento.avisoConclusao,
     Evento.conclusaoCidade r.nome, Evento.conclusaoPontuacao (round2 r.pontuacaoFinal),
     Evento.graficoBarras, Evento.graficoMapa]

/-- Weights used by the counterexample run: they sum to 1.5, not 1. -/
def pesosMaus : Pesos := { custo := 50/100, logistica := 50/100, consumo := 50/100 }

/-! ### Facts about `minimo`, `maximo` and `minmaxNorm` -/

lemma foldl_min_le_init (l : List ℚ) (a : ℚ) : l.foldl min a ≤ a := by
  induction l generalizing a with
  | nil => exact le_refl a
  | cons x t ih => exact le_trans (ih (min a x)) (min_le_left a x)

lemma foldl_min_le_mem (l : List ℚ) (a : ℚ) {v : ℚ} (hv : v ∈ l) : l.foldl min a ≤ v := by
  induction l generalizing a with
  | nil => cases hv
  | cons x t ih =>
    rcases List.mem_cons.mp hv with h | h
    · subst h
      exact le_trans (foldl_min_le_init t (min a v)) (min_le_right a v)
    · exact ih h (a := min a x)

lemma minimo_le_mem {xs : List ℚ} {v : ℚ} (hv : v ∈ xs) : minimo xs ≤ v := by
  cases xs with
  | nil => cases hv
  | cons x t =>
    rcases List.mem_cons.mp hv with h | h
    · subst h; exact foldl_min_le_init t v
    · exact foldl_min_le_mem t x h

lemma foldl_min_choice (l : List ℚ) (a : ℚ) : l.foldl min a = a ∨ l.foldl min a ∈ l := by
  induction l generalizing a with
  | nil => exact Or.inl rfl
  | cons x t ih =>
    rcases ih (min a x) with h | h
    · rw [List.foldl_cons, h]
      rcases min_choice a x with h2 | h2
      · exact Or.inl h2
      · right; rw [h2]; exact List.mem_cons_self x t
    · exact Or.inr (List.mem_cons_of_mem x h)

lemma minimo_mem {xs : List ℚ} (h : xs ≠ []) : minimo xs ∈ xs := by
  cases xs with
  | nil => exact absurd rfl h
  | cons x t =>
    show t.foldl min x ∈ x :: t
    rcases foldl_min_choice t x with h2 | h2
    · rw [h2]; exact List.mem_cons_self x t
    · exact List.mem_cons_of_mem x h2

lemma init_le_foldl_max (l : List ℚ) (a : ℚ) : a ≤ l.foldl max a := by
  induction l generalizing a with
  | nil => exact le_refl a
  | cons x t ih => exact le_trans (le_max_left a x) (ih (max a x))

lemma mem_le_foldl_max (l : List ℚ) (a : ℚ) {v : ℚ} (hv : v ∈ l) : v ≤ l.foldl max a := by
  induction l generalizing a with
  | nil => cases hv
  | cons x t ih =>
    rcases List.mem_cons.mp hv with h | h
    · subst h
      exact le_trans (le_max_right a v) (init_le_foldl_max t (max a v))
    · exact ih h (a := max a x)

lemma mem_le_maximo {xs : List ℚ} {v : ℚ} (hv : v ∈ xs) : v ≤ maximo xs := by
  cases xs with
  | nil => cases hv
  | cons x t =>
    rcases List.mem_cons.mp hv with h | h
    · subst h; exact init_le_foldl_max t v
    · exact mem_le_foldl_max t x h

lemma foldl_max_choice (l : List ℚ) (a : ℚ) : l.foldl max a = a ∨ l.foldl max a ∈ l := by
  induction l generalizing a with
  | nil => exact Or.inl rfl
  | cons x t ih =>
    rcases ih (max a x) with h | h
    · rw [List.foldl_cons, h]
      rcases max_choice a x with h2 | h2
      · exact Or.inl h2
      · right; rw [h2]; exact List.mem_cons_self x t
    · exact Or.inr (List.mem_cons_of_mem x h)

lemma maximo_mem {xs : List ℚ} (h : xs ≠ []) : maximo xs ∈ xs := by
  cases xs with
  | nil => exact absurd rfl h
  | cons x t =>
    show t.foldl max x ∈ x :: t
    rcases foldl_max_choice t x with h2 | h2
    · rw [h2]; exact List.mem_cons_self x t
    · exact List.mem_cons_of_mem x h2

lemma minimo_lt_maximo {xs : List ℚ} {a b : ℚ} (ha : a ∈ xs) (hb : b ∈ xs)
    (hab : a ≠ b) : minimo xs < maximo xs := by
  rcases lt_or_le (minimo xs) (maximo xs) with h | h
  · exact h
  · exact absurd (le_antisymm
      (le_trans (mem_le_maximo ha) (h.trans (minimo_le_mem hb)))
      (le_trans (mem_le_maximo hb) (h.trans (minimo_le_mem ha)))) hab

lemma minmaxNorm_eq_div {xs : List ℚ} (h : minimo xs < maximo xs) (v : ℚ) :
    minmaxNorm xs v = (v - minimo xs) / (maximo xs - minimo xs) := by
  rw [minmaxNorm, if_neg (sub_ne_zero.mpr h.ne')]

lemma minmaxNorm_min_eq_zero (xs : List ℚ) : minmaxNorm xs (minimo xs) = 0 := by
  simp [minmaxNorm]

lemma minmaxNorm_max_eq_one {xs : List ℚ} (h : minimo xs < maximo xs) :
    minmaxNorm xs (maximo xs) = 1 := by
  rw [minmaxNorm_eq_div h, div_self (sub_ne_zero.mpr h.ne')]

lemma minmaxNorm_unit {xs : List ℚ} {v : ℚ} (hv : v ∈ xs) :
    0 ≤ minmaxNorm xs v ∧ minmaxNorm xs v ≤ 1 := by
  have hmin : minimo xs ≤ v := minimo_le_mem hv
  have hmax : v ≤ maximo xs := mem_le_maximo hv
  rcases eq_or_lt_of_le (hmin.trans hmax) with h | h
  · have hv0 : v = minimo xs := le_antisymm (h ▸ hmax) hmin
    rw [hv0, minmaxNorm_min_eq_zero]
    norm_num
  · have hd : (0:ℚ) < maximo xs - minimo xs := sub_pos.mpr h
    rw [minmaxNorm_eq_div h]
    constructor
    · exact div_nonneg (sub_nonneg.mpr hmin) hd.le
    · exact (div_le_one hd).mpr (sub_le_sub_right hmax _)

lemma minmaxNorm_strictMono {xs : List ℚ} {a b : ℚ} (ha : a ∈ xs) (hb : b ∈ xs)
    (h : b < a) : minmaxNorm xs b < minmaxNorm xs a := by
  have hlt : minimo xs < maximo xs := minimo_lt_maximo hb ha h.ne
  have hd : (0:ℚ) < maximo xs - minimo xs := sub_pos.mpr hlt
  rw [minmaxNorm_eq_div hlt, minmaxNorm_eq_div hlt]
  gcongr

lemma minmaxNorm_all_eq_zero {xs : List ℚ} {v : ℚ}
    (hall : ∀ a ∈ xs, ∀ b ∈ xs, a = b) (hv : v ∈ xs) : minmaxNorm xs v = 0 := by
  have hmin : minimo xs ∈ xs := minimo_mem (List.ne_nil_of_mem hv)
  have : v = minimo xs := hall v hv (minimo xs) hmin
  rw [this, minmaxNorm_min_eq_zero]

/-! ### Claims -/

/-- Claim C1: for every city in the run, the final score equals
`w_cost * normScore_cost + w_logistics * normScore_logistics +
w_consumption * normScore_consumption` with the weight triple
(0.30, 0.40, 0.30), and those weights sum to 1. -/
theorem c1_pontuacao_ponderada (cs : List Cidade) (r : Registro)
    (hr : r ∈ pontuar pesosRef cs) :
    r.pontuacaoFinal = (30/100) * r.scoreCusto + (40/100) * r.scoreLogistica
      + (30/100) * r.scoreConsumo
    ∧ pesosRef.custo + pesosRef.logistica + pesosRef.consumo = 1 := by
  constructor
  · rw [pontuar] at hr
    rcases List.mem_map.mp hr with ⟨c, hc, rfl⟩
    simp only [registroDe, pontuacaoDe, pesosRef]
    ring
  · norm_num [pesosRef]

/-- Witness for C1 at the reference run: Recife's row. -/
theorem c1_pontuacao_ponderada_witness :
    (registroDe pesosRef cidadesRef recife ∈ pontuar pesosRef cidadesRef)
    ∧ ((registroDe pesosRef cidadesRef recife).pontuacaoFinal
        = (30/100) * (registroDe pesosRef cidadesRef recife).scoreCusto
          + (40/100) * (registroDe pesosRef cidadesRef recife).scoreLogistica
          + (30/100) * (registroDe pesosRef cidadesRef recife).scoreConsumo
      ∧ pesosRef.custo + pesosRef.logistica + pesosRef.consumo = 1) := by
  have hmem : registroDe pesosRef cidadesRef recife ∈ pontuar pesosRef cidadesRef := by
    simp [pontuar, cidadesRef]
  exact ⟨hmem, c1_pontuacao_ponderada cidadesRef _ hmem⟩

/-- Claim C3: the average delivery time of every city of the run is the
arithmetic mean, over the shared destination list, of the city's distance to
each destination divided by the average speed 60. -/
theorem c3_tempo_medio (p : Pesos) (cs : List Cidade) :
    (pontuar p cs).map (fun r => r.tempoMedioEntrega)
      = cs.map (fun c => (c.distancias.map (fun d => d / 60)).sum / (c.distancias.length : ℚ)) := by
  simp [pontuar, registroDe, tempoMedioDe, media, List.map_map, Function.comp]

/-- Claim C4: whenever one of the three metric columns of the run is not
constant, its minimum is normalized to 0, its maximum to 1, and every value to
`(value - min) / (max - min)`. -/
theorem c4_normalizacao_extremos (cs : List Cidade) (xs : List ℚ) (v : ℚ)
    (hcol : xs = colCusto cs ∨ xs = colTempo cs ∨ xs = colConsumo cs)
    (hne : ∃ a ∈ xs, ∃ b ∈ xs, a ≠ b) (hv : v ∈ xs) :
    minmaxNorm xs v = (v - minimo xs) / (maximo xs - minimo xs)
    ∧ (v = minimo xs → minmaxNorm xs v = 0)
    ∧ (v = maximo xs → minmaxNorm xs v = 1) := by
  rcases hne with ⟨a, ha, b, hb, hab⟩
  have hlt := minimo_lt_maximo ha hb hab
  refine ⟨minmaxNorm_eq_div hlt v, fun h => ?_, fun h => ?_⟩
  · rw [h]; exact minmaxNorm_min_eq_zero xs
  · rw [h]; exact minmaxNorm_max_eq_one hlt

/-- Witness for C4 at the inverted-cost column of the reference run. -/
theorem c4_normalizacao_extremos_witness :
    (colCusto cidadesRef = colCusto cidadesRef ∨ colCusto cidadesRef = colTempo cidadesRef
      ∨ colCusto cidadesRef = colConsumo cidadesRef)
    ∧ (∃ a ∈ colCusto cidadesRef, ∃ b ∈ colCusto cidadesRef, a ≠ b)
    ∧ (1 / recife.custo ∈ colCusto cidadesRef)
    ∧ (minmaxNorm (colCusto cidadesRef) (1 / recife.custo)
        = (1 / recife.custo - minimo (colCusto cidadesRef))
          / (maximo (colCusto cidadesRef) - minimo (colCusto cidadesRef))
      ∧ (1 / recife.custo = minimo (colCusto cidadesRef)
          → minmaxNorm (colCusto cidadesRef) (1 / recife.custo) = 0)
      ∧ (1 / recife.custo = maximo (colCusto cidadesRef)
          → minmaxNorm (colCusto cidadesRef) (1 / recife.custo) = 1)) := by
  have hne : ∃ a ∈ colCusto cidadesRef, ∃ b ∈ colCusto cidadesRef, a ≠ b := by
    refine ⟨1 / recife.custo, ?_, 1 / salvador.custo, ?_, ?_⟩
    · simp [colCusto, cidadesRef]
    · simp [colCusto, cidadesRef]
    · norm_num [recife, salvador]
  have hv : 1 / recife.custo ∈ colCusto cidadesRef := by simp [colCusto, cidadesRef]
  exact ⟨Or.inl rfl, hne, hv,
    c4_normalizacao_extremos cidadesRef _ _ (Or.inl rfl) hne hv⟩

/-- Claim C8: every normalized sub-score of every city of the run lies in
`[0, 1]`. -/
theorem c8_scores_no_intervalo (p : Pesos) (cs : List Cidade) (r : Registro)
    (hr : r ∈ pontuar p cs) :
    (0 ≤ r.scoreCusto ∧ r.scoreCusto ≤ 1)
    ∧ (0 ≤ r.scoreLogistica ∧ r.scoreLogistica ≤ 1)
    ∧ (0 ≤ r.scoreConsumo ∧ r.scoreConsumo ≤ 1) := by
  rw [pontuar] at hr
  rcases List.mem_map.mp hr with ⟨c, hc, rfl⟩
  refine ⟨?_, ?_, ?_⟩
  · exact minmaxNorm_unit (List.mem_map_of_mem _ hc)
  · exact minmaxNorm_unit (List.mem_map_of_mem _ hc)
  · exact minmaxNorm_unit (List.mem_map_of_mem _ hc)

/-- Witness for C8 at the reference run: Recife's row. -/
theorem c8_scores_no_intervalo_witness :
    (registroDe pesosRef cidadesRef recife ∈ pontuar pesosRef cidadesRef)
    ∧ ((0 ≤ (registroDe pesosRef cidadesRef recife).scoreCusto
        ∧ (registroDe pesosRef cidadesRef recife).scoreCusto ≤ 1)
      ∧ (0 ≤ (registroDe pesosRef cidadesRef recife).scoreLogistica
        ∧ (registroDe pesosRef cidadesRef recife).scoreLogistica ≤ 1)
      ∧ (0 ≤ (registroDe pesosRef cidadesRef recife).scoreConsumo
        ∧ (registroDe pesosRef cidadesRef recife).scoreConsumo ≤ 1)) := by
  have hmem : registroDe pesosRef cidadesRef recife ∈ pontuar pesosRef cidadesRef := by
    simp [pontuar, cidadesRef]
  exact ⟨hmem, c8_scores_no_intervalo pesosRef cidadesRef _ hmem⟩

/-- Claim C10: when one of the three metric columns of the run is constant
(`max == min`), every city's normalized sub-score for that metric is 0, the
fallback `MinMaxScaler` resolves to. -/
theorem c10_normalizacao_degenerada (cs : List Cidade) (xs : List ℚ) (v : ℚ)
    (hcol : xs = colCusto cs ∨ xs = colTempo cs ∨ xs = colConsumo cs)
    (hall : ∀ a ∈ xs, ∀ b ∈ xs, a = b) (hv : v ∈ xs) :
    minmaxNorm xs v = 0 :=
  minmaxNorm_all_eq_zero hall hv

/-- Witness for C10 on a run of two cities with equal rent cost. -/
theorem c10_normalizacao_degenerada_witness :
    (colCusto [recife, recife] = colCusto [recife, recife]
      ∨ colCusto [recife, recife] = colTempo [recife, recife]
      ∨ colCusto [recife, recife] = colConsumo [recife, recife])
    ∧ (∀ a ∈ colCusto [recife, recife], ∀ b ∈ colCusto [recife, recife], a = b)
    ∧ (1 / recife.custo ∈ colCusto [recife, recife])
    ∧ minmaxNorm (colCusto [recife, recife]) (1 / recife.custo) = 0 := by
  have hall : ∀ a ∈ colCusto [recife, recife], ∀ b ∈ colCusto [recife, recife], a = b := by
    simp [colCusto]
  have hv : 1 / recife.custo ∈ colCusto [recife, recife] := by simp [colCusto]
  exact ⟨Or.inl rfl, hall, hv,
    c10_normalizacao_degenerada [recife, recife] _ _ (Or.inl rfl) hall hv⟩

/-- Claim C2: on a nonempty run the reported winner exists, its final score is
maximal, and every city strictly earlier in input order has a strictly smaller
final score, so ties resolve to the first city in input order. -/
theorem c2_vencedora_argmax (p : Pesos) (cs : List Cidade) (h : cs ≠ []) :
    ∃ r, vencedoraDe p cs = some r
    ∧ (∀ s ∈ pontuar p cs, s.pontuacaoFinal ≤ r.pontuacaoFinal)
    ∧ (∀ j, j < idxmax ((pontuar p cs).map (fun t => t.pontuacaoFinal))
        → ((pontuar p cs).map (fun t => t.pontuacaoFinal)).getD j 0 < r.pontuacaoFinal) := by
  set rs := pontuar p cs with hrs
  set xs := rs.map (fun t => t.pontuacaoFinal) with hxs
  have hxsne : xs ≠ [] := by
    simp [hxs, hrs, pontuar, h]
  have hmax : maximo xs ∈ xs := maximo_mem hxsne
  have hilt : xs.findIdx (fun v => decide (v = maximo xs)) < xs.length :=
    List.findIdx_lt_length_of_exists ⟨maximo xs, hmax, by simp⟩
  have hlen : xs.length = rs.length := by simp [hxs]
  have hirs : idxmax xs < rs.length := by rw [← hlen]; exact hilt
  have hval : xs.get ⟨idxmax xs, hilt⟩ = maximo xs := by
    have := List.findIdx_getElem (w := hilt)
    simpa using this
  have hget : (rs.get ⟨idxmax xs, hirs⟩).pontuacaoFinal = xs.get ⟨idxmax xs, hilt⟩ := by
    simp [hxs]
  refine ⟨rs.get ⟨idxmax xs, hirs⟩, ?_, ?_, ?_⟩
  · show rs.get? (idxmax xs) = _
    exact List.get?_eq_get hirs
  · intro s hs
    have hmember : s.pontuacaoFinal ∈ xs := by
      rw [hxs]; exact List.mem_map_of_mem _ hs
    rw [hget, hval]
    exact mem_le_maximo hmember
  · intro j hj
    have hjlt : j < xs.length := lt_trans hj hilt
    have hne : xs[j] ≠ maximo xs := by
      have := List.not_of_lt_findIdx (p := fun v => decide (v = maximo xs)) hj
      simpa using this
    have hmem : xs[j] ∈ xs := List.getElem_mem hjlt
    rw [List.getD_eq_getElem?_getD, List.getElem?_eq_getElem hjlt]
    rw [hget, hval]
    simp only [Option.getD_some]
    exact lt_of_le_of_ne (mem_le_maximo hmem) hne

/-- Witness for C2 at the reference run. -/
theorem c2_vencedora_argmax_witness :
    cidadesRef ≠ []
    ∧ (∃ r, vencedoraDe pesosRef cidadesRef = some r
      ∧ (∀ s ∈ pontuar pesosRef cidadesRef, s.pontuacaoFinal ≤ r.pontuacaoFinal)
      ∧ (∀ j, j < idxmax ((pontuar pesosRef cidadesRef).map (fun t => t.pontuacaoFinal))
          → ((pontuar pesosRef cidadesRef).map (fun t => t.pontuacaoFinal)).getD j 0
            < r.pontuacaoFinal)) := by
  have h : cidadesRef ≠ [] := by simp [cidadesRef]
  exact ⟨h, c2_vencedora_argmax pesosRef cidadesRef h⟩

/-- Claim C5: a city that strictly dominates another one of the same run on
all three raw criteria (lower rent cost, lower average delivery time, higher
neighboring economic output) gets a strictly greater final score, given the
positivity the data model requires of cost and delivery time. -/
theorem c5_dominancia (cs : List Cidade) (A B : Cidade)
    (hA : A ∈ cs) (hB : B ∈ cs)
    (hcA : 0 < A.custo) (hcusto : A.custo < B.custo)
    (htA : 0 < tempoMedioDe A) (htempo : tempoMedioDe A < tempoMedioDe B)
    (hpib : B.pibVizinhos < A.pibVizinhos) :
    pontuacaoDe pesosRef cs B < pontuacaoDe pesosRef cs A := by
  have hc : (1:ℚ) / B.custo < 1 / A.custo :=
    div_lt_div_of_pos_left one_pos hcA hcusto
  have ht : (1:ℚ) / tempoMedioDe B < 1 / tempoMedioDe A :=
    div_lt_div_of_pos_left one_pos htA htempo
  have h1 : minmaxNorm (colCusto cs) (1 / B.custo) < minmaxNorm (colCusto cs) (1 / A.custo) :=
    minmaxNorm_strictMono (List.mem_map_of_mem _ hA) (List.mem_map_of_mem _ hB) hc
  have h2 : minmaxNorm (colTempo cs) (1 / tempoMedioDe B)
      < minmaxNorm (colTempo cs) (1 / tempoMedioDe A) :=
    minmaxNorm_strictMono (List.mem_map_of_mem _ hA) (List.mem_map_of_mem _ hB) ht
  have h3 : minmaxNorm (colConsumo cs) B.pibVizinhos < minmaxNorm (colConsumo cs) A.pibVizinhos :=
    minmaxNorm_strictMono (List.mem_map_of_mem _ hA) (List.mem_map_of_mem _ hB) hpib
  simp only [pontuacaoDe, pesosRef]
  nlinarith [h1, h2, h3]

/-- Cities used by the C5 witness: `cidA` strictly dominates `cidB`. -/
def cidA : Cidade := { nome := "A", custo := 1, distancias := [60], pibVizinhos := 10 }

/-- See `cidA`. -/
def cidB : Cidade := { nome := "B", custo := 2, distancias := [120], pibVizinhos := 5 }

/-- Witness for C5 on a two-city run where `cidA` dominates `cidB`. -/
theorem c5_dominancia_witness :
    cidA ∈ [cidA, cidB] ∧ cidB ∈ [cidA, cidB]
    ∧ (0 < cidA.custo ∧ cidA.custo < cidB.custo)
    ∧ (0 < tempoMedioDe cidA ∧ tempoMedioDe cidA < tempoMedioDe cidB)
    ∧ cidB.pibVizinhos < cidA.pibVizinhos
    ∧ pontuacaoDe pesosRef [cidA, cidB] cidB < pontuacaoDe pesosRef [cidA, cidB] cidA := by
  have hA : cidA ∈ [cidA, cidB] := List.mem_cons_self _ _
  have hB : cidB ∈ [cidA, cidB] := List.mem_cons_of_mem _ (List.mem_cons_self _ _)
  have hcA : (0:ℚ) < cidA.custo := by norm_num [cidA]
  have hcusto : cidA.custo < cidB.custo := by norm_num [cidA, cidB]
  have htA : 0 < tempoMedioDe cidA := by norm_num [tempoMedioDe, media, cidA]
  have htempo : tempoMedioDe cidA < tempoMedioDe cidB := by
    norm_num [tempoMedioDe, media, cidA, cidB]
  have hpib : cidB.pibVizinhos < cidA.pibVizinhos := by norm_num [cidA, cidB]
  exact ⟨hA, hB, ⟨hcA, hcusto⟩, ⟨htA, htempo⟩, hpib,
    c5_dominancia [cidA, cidB] cidA cidB hA hB hcA hcusto htA htempo hpib⟩

/-- Claim C6, corrected: the script performs no weight-sum validation at all.
Scoring proceeds for any weight triple (one score row per city), and the one
weight triple the script ever uses, the hardcoded (0.30, 0.40, 0.30), sums
to 1. -/
theorem c6_pesos_sem_validacao :
    pesosRef.custo + pesosRef.logistica + pesosRef.consumo = 1
    ∧ ∀ (p : Pesos) (cs : List Cidade), (pontuar p cs).length = cs.length := by
  constructor
  · norm_num [pesosRef]
  · intro p cs
    simp [pontuar]

/-- Counterexample to C6 as stated: with weights (0.50, 0.50, 0.50), which sum
to 1.5, the pipeline still produces final scores (here [1, 0.5] for the
reference cities) instead of rejecting the input before scoring. -/
theorem c6_pesos_sem_validacao_contraexemplo :
    pesosMaus.custo + pesosMaus.logistica + pesosMaus.consumo ≠ 1
    ∧ (pontuar pesosMaus cidadesRef).map (fun r => r.pontuacaoFinal) = [1, 1/2] := by
  constructor
  · norm_num [pesosMaus]
  · simp [pontuar, registroDe, pontuacaoDe, minmaxNorm, colCusto, colTempo, colConsumo,
      tempoMedioDe, media, minimo, maximo, cidadesRef, recife, salvador, pesosMaus, pibEstados]
    norm_num [min_def, max_def]

/-- Claim C7: the analysis is deterministic: two runs over identical inputs
produce identical rounded console output (ranked table, winning city and
two-decimal final score) and identical event traces. -/
theorem c7_determinismo (p₁ p₂ : Pesos) (cs₁ cs₂ : List Cidade)
    (hp : p₁ = p₂) (hcs : cs₁ = cs₂) :
    saida p₁ cs₁ = saida p₂ cs₂ ∧ eventos p₁ cs₁ = eventos p₂ cs₂ := by
  subst hp
  subst hcs
  exact ⟨rfl, rfl⟩

/-- Witness for C7 at the reference constants. -/
theorem c7_determinismo_witness :
    pesosRef = pesosRef ∧ cidadesRef = cidadesRef
    ∧ (saida pesosRef cidadesRef = saida pesosRef cidadesRef
      ∧ eventos pesosRef cidadesRef = eventos pesosRef cidadesRef) :=
  ⟨rfl, rfl, c7_determinismo pesosRef pesosRef cidadesRef cidadesRef rfl rfl⟩

/-- Claim C9: every console event of a run's trace (header, table, conclusion)
comes strictly before every chart-rendering event, so a chart failure cannot
suppress or roll back the already-printed scoring results. -/
theorem c9_console_antes_dos_graficos (p : Pesos) (cs : List Cidade)
    (i j : Nat) (e f : Evento)
    (hi : (eventos p cs).get? i = some e) (hj : (eventos p cs).get? j = some f)
    (he : e.ehConsole = true) (hf : f.ehGrafico = true) : i < j := by
  rw [eventos] at hi hj
  cases hv : vencedoraDe p cs with
  | none =>
    rw [hv] at hi
    simp at hi
  | some r =>
    rw [hv] at hi hj
    have hi8 : i < 8 := by
      rcases List.get?_eq_some.mp hi with ⟨hlt, _⟩
      simpa using hlt
    have hj8 : j < 8 := by
      rcases List.get?_eq_some.mp hj with ⟨hlt, _⟩
      simpa using hlt
    interval_cases i <;> interval_cases j <;>
      simp only [List.get?_cons_zero, List.get?_cons_succ, Option.some.injEq] at hi hj <;>
      subst hi <;> subst hj <;> revert he hf <;> simp [Evento.ehConsole, Evento.ehGrafico]

/-- The reference run's final scores: Recife 0.7, Salvador 0.3. -/
lemma pontuacoesRef :
    (pontuar pesosRef cidadesRef).map (fun r => r.pontuacaoFinal) = [7/10, 3/10] := by
  simp [pontuar, registroDe, pontuacaoDe, minmaxNorm, colCusto, colTempo, colConsumo,
    tempoMedioDe, media, minimo, maximo, cidadesRef, recife, salvador, pesosRef, pibEstados]
  norm_num [min_def, max_def]

/-- The first maximal final score of the reference run sits at index 0. -/
lemma idxmaxRef : idxmax ((pontuar pesosRef cidadesRef).map (fun r => r.pontuacaoFinal)) = 0 := by
  rw [pontuacoesRef, idxmax]
  have hm : maximo [(7:ℚ)/10, 3/10] = 7/10 := by norm_num [maximo, max_def]
  rw [hm]
  simp [List.findIdx_cons]

/-- The reference run's winner is Recife's row. -/
lemma vencedoraRef : vencedoraDe pesosRef cidadesRef = some (registroDe pesosRef cidadesRef recife) := by
  simp only [vencedoraDe]
  rw [idxmaxRef]
  simp [pontuar, cidadesRef]

/-- Witness for C9 at the reference run: the header print (index 0) precedes
the bar chart (index 6). -/
theorem c9_console_antes_dos_graficos_witness :
    (eventos pesosRef cidadesRef).get? 0 = some Evento.cabecalho
    ∧ (eventos pesosRef cidadesRef).get? 6 = some Evento.graficoBarras
    ∧ Evento.cabecalho.ehConsole = true
    ∧ Evento.graficoBarras.ehGrafico = true
    ∧ (0:Nat) < 6 := by
  have h0 : (eventos pesosRef cidadesRef).get? 0 = some Evento.cabecalho := by
    simp only [eventos, vencedoraRef]
    rfl
  have h6 : (eventos pesosRef cidadesRef).get? 6 = some Evento.graficoBarras := by
    simp only [eventos, vencedoraRef]
    rfl
  exact ⟨h0, h6, rfl, rfl,
    c9_console_antes_dos_graficos pesosRef cidadesRef 0 6 _ _ h0 h6 rfl rfl⟩
